import Mathlib

/-!
Verification development for the VAST analysis execution engine.

The definitions below are shallow embeddings of the Python sources under
backend/: the job dispatcher (analysis_app/tasks.py), the cancel endpoint
(analysis_app/views.py), the backend registry (analysis_core/base.py), the
parameter registry (analysis_core/param_defs.py) and the three concrete
analysis backends (analysis_core/stingray_backend.py,
analysis_core/lightkurve_backend.py, analysis_core/astropy_backend.py).
External library calls (stingray, lightkurve, astropy, numpy, pandas,
filesystem, database writes) are modelled as environment fields carrying
either the payload the library returned or the text of the exception it
raised; everything the repository itself computes is translated directly.
-/

namespace VAST

/-- Job status enum, models.py STATUS_CHOICES. -/
inductive JStatus where
  | PENDING | RUNNING | SUCCESS | FAILED
deriving DecidableEq

/-- One AnalysisJob row (analysis_app/models.py), restricted to the fields
the dispatcher and the cancel endpoint read or write. Timestamps are
abstract ticks. -/
structure JobRow where
  id : Nat
  status : JStatus
  errorMessage : Option String
  startedAt : Option Nat
  finishedAt : Option Nat
  analysisType : String
  backend : String
deriving DecidableEq

/-- One AnalysisResult row (analysis_app/models.py). `content` holds the
JSON payload as an abstract string. -/
structure ResultRow where
  resultType : String
  filePath : Option String
  content : Option String
deriving DecidableEq

/-- Backend variants, the closed registry of base.py get_backend. -/
inductive BackendTag where
  | stingray | lightkurve | astropy
deriving DecidableEq

/-- base.py get_backend: name to instance over the closed registry of
three names, ValueError naming the unknown backend otherwise. -/
def get_backend (backendName : String) : Except String BackendTag :=
  if backendName = "stingray" then Except.ok BackendTag.stingray
  else if backendName = "lightkurve" then Except.ok BackendTag.lightkurve
  else if backendName = "astropy" then Except.ok BackendTag.astropy
  else Except.error (String.append "Unknown backend: " backendName)

/-- models.py BACKEND_CHOICES. -/
def BACKEND_CHOICES : List String := ["stingray", "lightkurve", "astropy"]

/-- Modelled from the spec: the enforcement of BACKEND_CHOICES at job
creation lives in the web framework (the ModelSerializer generated from
AnalysisJob validates the `backend` field against the model choices and
rejects the request before perform_create stores a PENDING job); only the
choices declaration itself is under src/. A creation request is accepted
only when the named backend is one of the declared choices. -/
def createJobBackendAccepted (backendName : String) : Bool :=
  BACKEND_CHOICES.contains backendName

/-- param_defs.py ANALYSIS_CLASSES: the registered analysis types, in
declaration order, paired with their parameter class names. -/
def ANALYSIS_CLASSES : List (String × String) :=
  [("power_spectrum", "PowerSpectrumAnalysis"),
   ("fourier_transform", "FourierTransformAnalysis"),
   ("lomb_scargle", "LombScargleAnalysis"),
   ("rebin", "RebinAnalysis"),
   ("pds_simulation", "PDSSimulationAnalysis"),
   ("cross_spectrum", "CrossSpectrumAnalysis")]

/-- param_defs.py get_analysis_params: schema lookup, ValueError for an
unregistered type (the schema body itself is irrelevant here, the class
name stands in for it). -/
def get_analysis_params (analysisType : String) : Except String String :=
  match (ANALYSIS_CLASSES.filter (fun p => p.1 = analysisType)).head? with
  | some p => Except.ok p.2
  | none => Except.error (String.append "Unknown analysis type: " analysisType)

/-- views.py AnalysisJobViewSet.cancel: if the job is PENDING or RUNNING,
mark it FAILED with message "Job cancelled by user" and finished_at = now
and answer ok (true); otherwise answer a 400 validation error (false) and
touch nothing. -/
def cancelOp (j : JobRow) (t : Nat) : JobRow × Bool :=
  if j.status = JStatus.PENDING ∨ j.status = JStatus.RUNNING then
    ({ j with status := JStatus.FAILED,
              errorMessage := some "Job cancelled by user",
              finishedAt := some t }, true)
  else
    (j, false)

/-- tasks.py lines 28-31: the worker marks the fetched row RUNNING with
started_at = now and saves it. -/
def workerStartSave (j : JobRow) (t : Nat) : JobRow :=
  { j with status := JStatus.RUNNING, startedAt := some t }

/-- tasks.py lines 97-100: the terminal SUCCESS write. The worker saves
its in-memory job object (fetched at start of the run) with status and
finished_at updated; the current database row `dbNow` is not consulted,
so whatever it holds is overwritten. -/
def workerSuccessSave (mem : JobRow) (dbNow : JobRow) (t : Nat) : JobRow :=
  { mem with status := JStatus.SUCCESS, finishedAt := some t }

section ClaimC6

/-- Concrete job creation request used below. -/
def reqBackendBad : String := "tensorflow"

/-- C6: get_backend resolves exactly the three registered names; every
other string is refused with an error naming it, and a creation request
naming it is rejected (never accepted into PENDING). -/
theorem c6_backend_registry_closed :
    get_backend "stingray" = Except.ok BackendTag.stingray
    ∧ get_backend "lightkurve" = Except.ok BackendTag.lightkurve
    ∧ get_backend "astropy" = Except.ok BackendTag.astropy
    ∧ ∀ s : String, s ∉ BACKEND_CHOICES →
        get_backend s = Except.error (String.append "Unknown backend: " s)
        ∧ createJobBackendAccepted s = false := by
  refine ⟨rfl, rfl, rfl, ?_⟩
  intro s hs
  have h1 : s ≠ "stingray" := by intro h; exact hs (by simp [BACKEND_CHOICES, h])
  have h2 : s ≠ "lightkurve" := by intro h; exact hs (by simp [BACKEND_CHOICES, h])
  have h3 : s ≠ "astropy" := by intro h; exact hs (by simp [BACKEND_CHOICES, h])
  constructor
  · simp [get_backend, h1, h2, h3]
  · simp [createJobBackendAccepted, BACKEND_CHOICES, h1, h2, h3]

/-- C6 witness: the unregistered name "tensorflow" is refused by
get_backend with the naming error and rejected at creation. -/
theorem c6_backend_registry_closed_witness :
    get_backend reqBackendBad = Except.error "Unknown backend: tensorflow"
    ∧ createJobBackendAccepted reqBackendBad = false :=
  c6_backend_registry_closed.2.2.2 reqBackendBad (by decide)

end ClaimC6

section ClaimC7

/-- A concrete RUNNING job. -/
def jobRunningC7 : JobRow :=
  { id := 11, status := JStatus.RUNNING, errorMessage := none,
    startedAt := some 1, finishedAt := none,
    analysisType := "rebin", backend := "stingray" }

/-- C7 counterexample: cancelling a RUNNING job stores the error message
"Job cancelled by user", not the exact string "cancelled by user" the
claim states. -/
theorem c7_counterexample :
    (cancelOp jobRunningC7 5).1.errorMessage = some "Job cancelled by user"
    ∧ (cancelOp jobRunningC7 5).1.errorMessage ≠ some "cancelled by user" := by
  constructor
  · rfl
  · intro h
    simp [cancelOp, jobRunningC7] at h

/-- C7 amended: cancel succeeds exactly on PENDING or RUNNING jobs, where
it sets status FAILED, error_message "Job cancelled by user" and
finished_at = now; on a job in any other state it reports a validation
error and leaves every field unchanged. -/
theorem c7_amended_cancel_semantics :
    ∀ (j : JobRow) (t : Nat),
      (j.status = JStatus.PENDING ∨ j.status = JStatus.RUNNING →
        cancelOp j t =
          ({ j with status := JStatus.FAILED,
                    errorMessage := some "Job cancelled by user",
                    finishedAt := some t }, true))
      ∧ (j.status ≠ JStatus.PENDING → j.status ≠ JStatus.RUNNING →
          cancelOp j t = (j, false)) := by
  intro j t
  constructor
  · intro h
    simp [cancelOp, h]
  · intro h1 h2
    simp [cancelOp, h1, h2]

/-- C7 amended witness: cancelling the concrete RUNNING job at tick 5
yields the FAILED row with the recorded message, and cancelling the
resulting FAILED row is refused without mutation. -/
theorem c7_amended_cancel_semantics_witness :
    cancelOp jobRunningC7 5 =
      ({ jobRunningC7 with status := JStatus.FAILED,
                           errorMessage := some "Job cancelled by user",
                           finishedAt := some 5 }, true) :=
  (c7_amended_cancel_semantics jobRunningC7 5).1 (Or.inr rfl)

end ClaimC7

section ClaimC3

/-- A fresh PENDING job. -/
def jobC3 : JobRow :=
  { id := 7, status := JStatus.PENDING, errorMessage := none,
    startedAt := none, finishedAt := none,
    analysisType := "rebin", backend := "stingray" }

/-- The worker picks up jobC3 at tick 1: its in-memory copy, which is also
what the RUNNING save stored in the database. -/
def memC3 : JobRow := workerStartSave jobC3 1

/-- A cancellation arrives at tick 2 while the worker is inside its
backend calls: the database row becomes FAILED / cancelled. -/
def dbAfterCancelC3 : JobRow := (cancelOp memC3 2).1

/-- The worker finishes at tick 3 and performs its terminal write against
the in-memory copy, ignoring the current row. -/
def dbFinalC3 : JobRow := workerSuccessSave memC3 dbAfterCancelC3 3

/-- C3 counterexample: a job marked FAILED by cancellation is then
overwritten to SUCCESS by the worker terminal write, which also clears
the cancellation message - the terminal state is not monotonic. -/
theorem c3_counterexample :
    (cancelOp memC3 2).2 = true
    ∧ dbAfterCancelC3.status = JStatus.FAILED
    ∧ dbAfterCancelC3.errorMessage = some "Job cancelled by user"
    ∧ dbFinalC3.status = JStatus.SUCCESS
    ∧ dbFinalC3.errorMessage = none := by
  refine ⟨rfl, rfl, rfl, rfl, rfl⟩

/-- C3 amended: the cancel endpoint itself never mutates a terminal job,
but the worker terminal write does not consult the current row: it
produces the same SUCCESS row whatever the database holds, so a
cancellation recorded while the worker is running is overwritten. -/
theorem c3_amended_terminal_write_unconditional :
    (∀ (j : JobRow) (t : Nat),
        j.status = JStatus.SUCCESS ∨ j.status = JStatus.FAILED →
        cancelOp j t = (j, false))
    ∧ (∀ (mem db1 db2 : JobRow) (t : Nat),
        workerSuccessSave mem db1 t = workerSuccessSave mem db2 t)
    ∧ (∀ (mem db0 : JobRow) (t : Nat),
        (workerSuccessSave mem db0 t).status = JStatus.SUCCESS) := by
  refine ⟨?_, ?_, ?_⟩
  · intro j t h
    have h1 : j.status ≠ JStatus.PENDING := by rcases h with h | h <;> simp [h]
    have h2 : j.status ≠ JStatus.RUNNING := by rcases h with h | h <;> simp [h]
    simp [cancelOp, h1, h2]
  · intro mem db1 db2 t
    rfl
  · intro mem db0 t
    rfl

/-- C3 amended witness: cancelling the overwritten SUCCESS row dbFinalC3
is refused and mutates nothing. -/
theorem c3_amended_terminal_write_unconditional_witness :
    cancelOp dbFinalC3 9 = (dbFinalC3, false) :=
  c3_amended_terminal_write_unconditional.1 dbFinalC3 9 (Or.inl rfl)

end ClaimC3

/-! ## The dispatcher (tasks.py run_analysis) -/

/-- The raw analysis output as the dispatcher sees it: it only tests for
the presence of a data section and a stats section and forwards their
JSON payloads (tasks.py lines 76, 90). -/
structure RawD where
  data : Option String
  stats : Option String
deriving DecidableEq

/-- generate_plot output as the dispatcher sees it: an html string and an
optional json_data payload (plot_result.get). -/
structure PlotD where
  html : String
  jsonData : Option String
deriving DecidableEq

/-- Persistence and filesystem events, in the order the dispatcher emits
them; used to state what ran and in which order. -/
inductive Ev where
  | savedRunning | wrotePlotFile | createdPlot | wroteDataFile
  | createdData | createdStats | savedSuccess | savedFailed
deriving DecidableEq

/-- Chain position of each event in tasks.py. -/
def stepIdx : Ev → Nat
  | Ev.savedRunning => 0
  | Ev.wrotePlotFile => 1
  | Ev.createdPlot => 2
  | Ev.wroteDataFile => 3
  | Ev.createdData => 4
  | Ev.createdStats => 5
  | Ev.savedSuccess => 6
  | Ev.savedFailed => 7

/-- The persistent state a single job run touches: its job row, its result
rows, and the ordered log of successful writes. -/
structure DB where
  job : JobRow
  results : List ResultRow
  trace : List Ev
deriving DecidableEq

/-- Outcomes of every fallible call of the run_analysis chain, plus the
clock ticks the chain reads. A field carries the library or store answer:
ok with its payload, or error with the text of the raised exception. -/
structure TaskEnv where
  saveRunning : Except String Unit
  readFile : Except String Unit
  runAnalysis : Except String RawD
  generatePlot : Except String PlotD
  writePlotFile : Except String Unit
  createPlotRow : Except String Unit
  writeDataFile : Except String Unit
  createDataRow : Except String Unit
  createStatsRow : Except String Unit
  saveSuccess : Except String Unit
  saveFailedWrite : Except String Unit
  tStart : Nat
  tFile : Nat
  tFile2 : Nat
  tFinish : Nat

/-- tasks.py line 57: plot file name from job id, analysis type and a
timestamp. -/
def plotFilename (jobId : Nat) (analysisType : String) (t : Nat) : String :=
  String.append (toString jobId)
    (String.append "_" (String.append analysisType
      (String.append "_" (String.append (toString t) ".html"))))

/-- tasks.py line 77: data file name from job id, analysis type and a
fresh timestamp. -/
def dataFilename (jobId : Nat) (analysisType : String) (t : Nat) : String :=
  String.append (toString jobId)
    (String.append "_" (String.append analysisType
      (String.append "_" (String.append (toString t) ".json"))))

/-- tasks.py lines 104-118, the except handler: re-fetch the job row from
the store (here: the current db), mark it FAILED with the error text and
finished_at; if that save itself raises, only log it; either way re-raise
the original error. -/
def failWrite (env : TaskEnv) (db : DB) (e : String) : DB × Except String Unit :=
  match env.saveFailedWrite with
  | Except.ok _ =>
      ({ db with
          job := { db.job with
                    status := JStatus.FAILED,
                    errorMessage := some e,
                    finishedAt := some env.tFinish },
          trace := db.trace ++ [Ev.savedFailed] },
        Except.error e)
  | Except.error _ => (db, Except.error e)

/-- tasks.py lines 97-102: the terminal SUCCESS save, after all result
rows. -/
def finishStage (env : TaskEnv) (db : DB) : DB × Except String Unit :=
  match env.saveSuccess with
  | Except.error e => failWrite env db e
  | Except.ok _ =>
      ({ db with
          job := { db.job with
                    status := JStatus.SUCCESS,
                    finishedAt := some env.tFinish },
          trace := db.trace ++ [Ev.savedSuccess] },
        Except.ok ())

/-- tasks.py lines 90-95: if the raw result has a stats section, store it
as a stats row with inline content and no file, then finish. -/
def statsStage (env : TaskEnv) (db : DB) (raw : RawD) : DB × Except String Unit :=
  match raw.stats with
  | none => finishStage env db
  | some s =>
      match env.createStatsRow with
      | Except.error e => failWrite env db e
      | Except.ok _ =>
          finishStage env
            { db with
                results := db.results ++
                  [{ resultType := "stats", filePath := none, content := some s }],
                trace := db.trace ++ [Ev.createdStats] }

/-- tasks.py lines 76-87: if the raw result has a data section, write it
to a timestamped json file and store a data row referencing it with no
inline content, then run the stats stage. -/
def dataStage (env : TaskEnv) (db : DB) (jobId : Nat) (analysisType : String)
    (raw : RawD) : DB × Except String Unit :=
  match raw.data with
  | none => statsStage env db raw
  | some _ =>
      match env.writeDataFile with
      | Except.error e => failWrite env db e
      | Except.ok _ =>
          let db4 := { db with trace := db.trace ++ [Ev.wroteDataFile] }
          match env.createDataRow with
          | Except.error e => failWrite env db4 e
          | Except.ok _ =>
              statsStage env
                { db4 with
                    results := db4.results ++
                      [{ resultType := "data",
                         filePath := some (String.append "results/"
                           (dataFilename jobId analysisType env.tFile2)),
                         content := none }],
                    trace := db4.trace ++ [Ev.createdData] } raw

/-- tasks.py run_analysis, lines 21-118: mark RUNNING, resolve the
backend, load the file, run the analysis, render and write the plot,
store the plot row, then the data and stats rows, then mark SUCCESS;
the first raised exception jumps to the failWrite handler against the
database state reached so far. -/
def runTask (env : TaskEnv) (db : DB) : DB × Except String Unit :=
  match env.saveRunning with
  | Except.error e => failWrite env db e
  | Except.ok _ =>
      let db1 := { db with
        job := { db.job with
                  status := JStatus.RUNNING,
                  startedAt := some env.tStart },
        trace := db.trace ++ [Ev.savedRunning] }
      match get_backend db.job.backend with
      | Except.error e => failWrite env db1 e
      | Except.ok _ =>
          match env.readFile with
          | Except.error e => failWrite env db1 e
          | Except.ok _ =>
              match env.runAnalysis with
              | Except.error e => failWrite env db1 e
              | Except.ok raw =>
                  match env.generatePlot with
                  | Except.error e => failWrite env db1 e
                  | Except.ok plot =>
                      match env.writePlotFile with
                      | Except.error e => failWrite env db1 e
                      | Except.ok _ =>
                          let db2 := { db1 with
                            trace := db1.trace ++ [Ev.wrotePlotFile] }
                          match env.createPlotRow with
                          | Except.error e => failWrite env db2 e
                          | Except.ok _ =>
                              dataStage env
                                { db2 with
                                    results := db2.results ++
                                      [{ resultType := "plot",
                                         filePath := some (String.append "results/"
                                           (plotFilename db.job.id db.job.analysisType env.tFile)),
                                         content := plot.jsonData }],
                                    trace := db2.trace ++ [Ev.createdPlot] }
                                db.job.id db.job.analysisType raw

section ClaimC2

/-- C2: when every call of the chain succeeds, the run persists, in this
order, one plot row (file_path referencing the saved html file named from
job id, analysis type and timestamp; content the serialized plot JSON),
then exactly when the raw result has a data section one data row
(file_path set, content empty), then exactly when it has a stats section
one stats row (content the stats mapping, no file), and only after these
rows the SUCCESS write with finished_at. -/
theorem c2_success_persists_plot_data_stats_in_order :
    ∀ (env : TaskEnv) (db : DB) (raw : RawD) (plot : PlotD) (bk : BackendTag),
      env.saveRunning = Except.ok () →
      get_backend db.job.backend = Except.ok bk →
      env.readFile = Except.ok () →
      env.runAnalysis = Except.ok raw →
      env.generatePlot = Except.ok plot →
      env.writePlotFile = Except.ok () →
      env.createPlotRow = Except.ok () →
      env.writeDataFile = Except.ok () →
      env.createDataRow = Except.ok () →
      env.createStatsRow = Except.ok () →
      env.saveSuccess = Except.ok () →
      runTask env db =
        ({ job := { db.job with
                     status := JStatus.SUCCESS,
                     startedAt := some env.tStart,
                     finishedAt := some env.tFinish },
           results := db.results
             ++ [{ resultType := "plot",
                   filePath := some (String.append "results/"
                     (plotFilename db.job.id db.job.analysisType env.tFile)),
                   content := plot.jsonData }]
             ++ (match raw.data with
                 | some _ =>
                     [{ resultType := "data",
                        filePath := some (String.append "results/"
                          (dataFilename db.job.id db.job.analysisType env.tFile2)),
                        content := none }]
                 | none => [])
             ++ (match raw.stats with
                 | some s =>
                     [{ resultType := "stats", filePath := none, content := some s }]
                 | none => []),
           trace := db.trace
             ++ [Ev.savedRunning, Ev.wrotePlotFile, Ev.createdPlot]
             ++ (match raw.data with
                 | some _ => [Ev.wroteDataFile, Ev.createdData]
                 | none => [])
             ++ (match raw.stats with
                 | some _ => [Ev.createdStats]
                 | none => [])
             ++ [Ev.savedSuccess] },
         Except.ok ()) := by
  intro env db raw plot bk h1 hgb h2 h3 h4 h5 h6 h7 h8 h9 h10
  cases hd : raw.data <;> cases hs : raw.stats <;>
    simp [runTask, dataStage, statsStage, finishStage, h1, hgb, h2, h3, h4,
      h5, h6, h7, h8, h9, h10, hd, hs]

/-- All-success environment for the C2 witness. -/
def envC2 : TaskEnv :=
  { saveRunning := Except.ok (), readFile := Except.ok (),
    runAnalysis := Except.ok { data := some "D", stats := some "S" },
    generatePlot := Except.ok { html := "H", jsonData := some "J" },
    writePlotFile := Except.ok (), createPlotRow := Except.ok (),
    writeDataFile := Except.ok (), createDataRow := Except.ok (),
    createStatsRow := Except.ok (), saveSuccess := Except.ok (),
    saveFailedWrite := Except.ok (),
    tStart := 1, tFile := 2, tFile2 := 3, tFinish := 4 }

/-- Fresh single-job database for the C2 witness. -/
def dbC2 : DB :=
  { job := { id := 3, status := JStatus.PENDING, errorMessage := none,
             startedAt := none, finishedAt := none,
             analysisType := "rebin", backend := "stingray" },
    results := [], trace := [] }

/-- C2 witness: one concrete all-success run, evaluated. -/
theorem c2_success_persists_plot_data_stats_in_order_witness :
    runTask envC2 dbC2 =
      ({ job := { id := 3, status := JStatus.SUCCESS, errorMessage := none,
                  startedAt := some 1, finishedAt := some 4,
                  analysisType := "rebin", backend := "stingray" },
         results :=
           [{ resultType := "plot", filePath := some "results/3_rebin_2.html",
              content := some "J" },
            { resultType := "data", filePath := some "results/3_rebin_3.json",
              content := none },
            { resultType := "stats", filePath := none, content := some "S" }],
         trace := [Ev.savedRunning, Ev.wrotePlotFile, Ev.createdPlot,
                   Ev.wroteDataFile, Ev.createdData, Ev.createdStats,
                   Ev.savedSuccess] },
       Except.ok ()) := by
  have h := c2_success_persists_plot_data_stats_in_order envC2 dbC2
    { data := some "D", stats := some "S" } { html := "H", jsonData := some "J" }
    BackendTag.stingray rfl rfl rfl rfl rfl rfl rfl rfl rfl rfl rfl
  simpa using h

end ClaimC2

section ClaimC4

/-- Database for the C4 counterexample: a fresh PENDING job, no results. -/
def dbC4 : DB :=
  { job := { id := 5, status := JStatus.PENDING, errorMessage := none,
             startedAt := none, finishedAt := none,
             analysisType := "lomb_scargle", backend := "astropy" },
    results := [], trace := [] }

/-- Environment for the C4 counterexample: the raw result has both a data
and a stats section, every store write would succeed, but persisting the
plot row raises. -/
def envC4 : TaskEnv :=
  { saveRunning := Except.ok (), readFile := Except.ok (),
    runAnalysis := Except.ok { data := some "D", stats := some "S" },
    generatePlot := Except.ok { html := "H", jsonData := some "J" },
    writePlotFile := Except.ok (),
    createPlotRow := Except.error "db write failed",
    writeDataFile := Except.ok (), createDataRow := Except.ok (),
    createStatsRow := Except.ok (), saveSuccess := Except.ok (),
    saveFailedWrite := Except.ok (),
    tStart := 1, tFile := 2, tFile2 := 3, tFinish := 4 }

/-- C4 counterexample: the raw result carries data and stats sections and
their writes would succeed, yet after the plot row write fails the run
persists no result row at all - the remaining result types are never
attempted, because one try block wraps all three writes. -/
theorem c4_counterexample :
    envC4.runAnalysis = Except.ok { data := some "D", stats := some "S" }
    ∧ envC4.createDataRow = Except.ok ()
    ∧ envC4.createStatsRow = Except.ok ()
    ∧ (runTask envC4 dbC4).1.results = []
    ∧ (runTask envC4 dbC4).1.job.status = JStatus.FAILED
    ∧ (runTask envC4 dbC4).1.job.errorMessage = some "db write failed" := by
  refine ⟨rfl, rfl, rfl, rfl, rfl, rfl⟩

/-- C4 amended: the three result writes share the single try block of the
task, so a failure persisting one result type aborts the remaining writes
and fails the job; rows persisted before the failure remain (no rollback),
which is the only way a partial result set arises. Shown for a failure of
the data-file write after the plot row was stored: the plot row is the
only row, the stats row is never attempted, the job is FAILED with the
error text. -/
theorem c4_amended_single_try_block :
    ∀ (env : TaskEnv) (db : DB) (raw : RawD) (plot : PlotD) (bk : BackendTag)
      (d : String) (e : String),
      env.saveRunning = Except.ok () →
      get_backend db.job.backend = Except.ok bk →
      env.readFile = Except.ok () →
      env.runAnalysis = Except.ok raw →
      env.generatePlot = Except.ok plot →
      env.writePlotFile = Except.ok () →
      env.createPlotRow = Except.ok () →
      raw.data = some d →
      env.writeDataFile = Except.error e →
      env.saveFailedWrite = Except.ok () →
      (runTask env db).1.results = db.results
          ++ [{ resultType := "plot",
                filePath := some (String.append "results/"
                  (plotFilename db.job.id db.job.analysisType env.tFile)),
                content := plot.jsonData }]
      ∧ (runTask env db).1.job.status = JStatus.FAILED
      ∧ (runTask env db).1.job.errorMessage = some e
      ∧ (runTask env db).2 = Except.error e := by
  intro env db raw plot bk d e h1 hgb h2 h3 h4 h5 h6 hd h7 h8
  simp [runTask, dataStage, failWrite, h1, hgb, h2, h3, h4, h5, h6, hd, h7, h8]

/-- Environment for the C4 amended witness: data-file write fails after a
successful plot row write. -/
def envC4b : TaskEnv :=
  { envC4 with createPlotRow := Except.ok (),
               writeDataFile := Except.error "disk full" }

/-- C4 amended witness: on the concrete run only the plot row exists and
the job is FAILED with the data-write error. -/
theorem c4_amended_single_try_block_witness :
    (runTask envC4b dbC4).1.results =
      [{ resultType := "plot", filePath := some "results/5_lomb_scargle_2.html",
         content := some "J" }]
    ∧ (runTask envC4b dbC4).1.job.status = JStatus.FAILED := by
  have h := c4_amended_single_try_block envC4b dbC4
    { data := some "D", stats := some "S" } { html := "H", jsonData := some "J" }
    BackendTag.astropy "D" "disk full" rfl rfl rfl rfl rfl rfl rfl rfl rfl rfl
  exact ⟨by simpa using h.1, h.2.1⟩

end ClaimC4

section ClaimC1

/-- C1: starting from a fresh trace, whenever the chain raises (the run
returns the error e), the re-fetched job row is marked FAILED with
error_message = e and finished_at set; no SUCCESS write happens, the
handler write is the final event, the events that did happen respect the
chain order (so no step after the failing one ran); and the outcome is
the original error e whatever the terminal FAILED write does - a failure
of that write is only logged, never raised in place of e. -/
theorem c1_failure_marks_failed_preserves_error :
    ∀ (env : TaskEnv) (db : DB) (e : String),
      db.trace = [] →
      (runTask { env with saveFailedWrite := Except.ok () } db).2 = Except.error e →
      (runTask { env with saveFailedWrite := Except.ok () } db).1.job.status = JStatus.FAILED
      ∧ (runTask { env with saveFailedWrite := Except.ok () } db).1.job.errorMessage = some e
      ∧ (runTask { env with saveFailedWrite := Except.ok () } db).1.job.finishedAt = some env.tFinish
      ∧ Ev.savedSuccess ∉ (runTask { env with saveFailedWrite := Except.ok () } db).1.trace
      ∧ (runTask { env with saveFailedWrite := Except.ok () } db).1.trace.getLast? = some Ev.savedFailed
      ∧ List.Pairwise (fun a b => stepIdx a < stepIdx b)
          (runTask { env with saveFailedWrite := Except.ok () } db).1.trace
      ∧ ∀ w, (runTask { env with saveFailedWrite := w } db).2 = Except.error e := by
  intro env db e htr
  obtain ⟨f1, f2, f3, f4, f5, f6, f7, f8, f9, f10, f11, t1, t2, t3, t4⟩ := env
  obtain ⟨j, res, tr⟩ := db
  obtain rfl : tr = [] := htr
  cases f1 with
  | error e0 =>
      intro h
      simp only [runTask, failWrite, Except.error.injEq] at h
      subst h
      refine ⟨?_, ?_, ?_, ?_, ?_, ?_, ?_⟩ <;>
        simp only [runTask, failWrite] <;> first
        | rfl
        | decide
        | (intro w; cases w <;> rfl)
  | ok u1 =>
      cases hgb : get_backend j.backend with
      | error e0 =>
          intro h
          simp only [runTask, failWrite, hgb, Except.error.injEq] at h
          subst h
          refine ⟨?_, ?_, ?_, ?_, ?_, ?_, ?_⟩ <;>
            simp only [runTask, failWrite, hgb] <;> first
            | rfl
            | decide
            | (intro w; cases w <;> rfl)
      | ok bk =>
          cases f2 with
          | error e0 =>
              intro h
              simp only [runTask, failWrite, hgb, Except.error.injEq] at h
              subst h
              refine ⟨?_, ?_, ?_, ?_, ?_, ?_, ?_⟩ <;>
                simp only [runTask, failWrite, hgb] <;> first
                | rfl
                | decide
                | (intro w; cases w <;> rfl)
          | ok u2 =>
              cases f3 with
              | error e0 =>
                  intro h
                  simp only [runTask, failWrite, hgb, Except.error.injEq] at h
                  subst h
                  refine ⟨?_, ?_, ?_, ?_, ?_, ?_, ?_⟩ <;>
                    simp only [runTask, failWrite, hgb] <;> first
                    | rfl
                    | decide
                    | (intro w; cases w <;> rfl)
              | ok raw =>
                  obtain ⟨rd, rs⟩ := raw
                  cases f4 with
                  | error e0 =>
                      intro h
                      simp only [runTask, failWrite, hgb, Except.error.injEq] at h
                      subst h
                      refine ⟨?_, ?_, ?_, ?_, ?_, ?_, ?_⟩ <;>
                        simp only [runTask, failWrite, hgb] <;> first
                        | rfl
                        | decide
                        | (intro w; cases w <;> rfl)
                  | ok plot =>
                      cases f5 with
                      | error e0 =>
                          intro h
                          simp only [runTask, failWrite, hgb, Except.error.injEq] at h
                          subst h
                          refine ⟨?_, ?_, ?_, ?_, ?_, ?_, ?_⟩ <;>
                            simp only [runTask, failWrite, hgb] <;> first
                            | rfl
                            | decide
                            | (intro w; cases w <;> rfl)
                      | ok u5 =>
                          cases f6 with
                          | error e0 =>
                              intro h
                              simp only [runTask, failWrite, hgb, Except.error.injEq] at h
                              subst h
                              refine ⟨?_, ?_, ?_, ?_, ?_, ?_, ?_⟩ <;>
                                simp only [runTask, failWrite, hgb] <;> first
                                | rfl
                                | decide
                                | (intro w; cases w <;> rfl)
                          | ok u6 =>
                              cases rd with
                              | none =>
                                  cases rs with
                                  | none =>
                                      cases f10 with
                                      | error e0 =>
                                          intro h
                                          simp only [runTask, dataStage, statsStage,
                                            finishStage, failWrite, hgb,
                                            Except.error.injEq] at h
                                          subst h
                                          refine ⟨?_, ?_, ?_, ?_, ?_, ?_, ?_⟩ <;>
                                            simp only [runTask, dataStage, statsStage,
                                              finishStage, failWrite, hgb] <;> first
                                            | rfl
                                            | decide
                                            | (intro w; cases w <;> rfl)
                                      | ok u10 =>
                                          intro h
                                          simp [runTask, dataStage, statsStage,
                                            finishStage, failWrite, hgb] at h
                                  | some s =>
                                      cases f9 with
                                      | error e0 =>
                                          intro h
                                          simp only [runTask, dataStage, statsStage,
                                            finishStage, failWrite, hgb,
                                            Except.error.injEq] at h
                                          subst h
                                          refine ⟨?_, ?_, ?_, ?_, ?_, ?_, ?_⟩ <;>
                                            simp only [runTask, dataStage, statsStage,
                                              finishStage, failWrite, hgb] <;> first
                                            | rfl
                                            | decide
                                            | (intro w; cases w <;> rfl)
                                      | ok u9 =>
                                          cases f10 with
                                          | error e0 =>
                                              intro h
                                              simp only [runTask, dataStage, statsStage,
                                                finishStage, failWrite, hgb,
                                                Except.error.injEq] at h
                                              subst h
                                              refine ⟨?_, ?_, ?_, ?_, ?_, ?_, ?_⟩ <;>
                                                simp only [runTask, dataStage, statsStage,
                                                  finishStage, failWrite, hgb] <;> first
                                                | rfl
                                                | decide
                                                | (intro w; cases w <;> rfl)
                                          | ok u10 =>
                                              intro h
                                              simp [runTask, dataStage, statsStage,
                                                finishStage, failWrite, hgb] at h
                              | some d =>
                                  cases f7 with
                                  | error e0 =>
                                      intro h
                                      simp only [runTask, dataStage, statsStage,
                                        finishStage, failWrite, hgb,
                                        Except.error.injEq] at h
                                      subst h
                                      refine ⟨?_, ?_, ?_, ?_, ?_, ?_, ?_⟩ <;>
                                        simp only [runTask, dataStage, statsStage,
                                          finishStage, failWrite, hgb] <;> first
                                        | rfl
                                        | decide
                                        | (intro w; cases w <;> rfl)
                                  | ok u7 =>
                                      cases f8 with
                                      | error e0 =>
                                          intro h
                                          simp only [runTask, dataStage, statsStage,
                                            finishStage, failWrite, hgb,
                                            Except.error.injEq] at h
                                          subst h
                                          refine ⟨?_, ?_, ?_, ?_, ?_, ?_, ?_⟩ <;>
                                            simp only [runTask, dataStage, statsStage,
                                              finishStage, failWrite, hgb] <;> first
                                            | rfl
                                            | decide
                                            | (intro w; cases w <;> rfl)
                                      | ok u8 =>
                                          cases rs with
                                          | none =>
                                              cases f10 with
                                              | error e0 =>
                                                  intro h
                                                  simp only [runTask, dataStage, statsStage,
                                                    finishStage, failWrite, hgb,
                                                    Except.error.injEq] at h
                                                  subst h
                                                  refine ⟨?_, ?_, ?_, ?_, ?_, ?_, ?_⟩ <;>
                                                    simp only [runTask, dataStage, statsStage,
                                                      finishStage, failWrite, hgb] <;> first
                                                    | rfl
                                                    | decide
                                                    | (intro w; cases w <;> rfl)
                                              | ok u10 =>
                                                  intro h
                                                  simp [runTask, dataStage, statsStage,
                                                    finishStage, failWrite, hgb] at h
                                          | some s =>
                                              cases f9 with
                                              | error e0 =>
                                                  intro h
                                                  simp only [runTask, dataStage, statsStage,
                                                    finishStage, failWrite, hgb,
                                                    Except.error.injEq] at h
                                                  subst h
                                                  refine ⟨?_, ?_, ?_, ?_, ?_, ?_, ?_⟩ <;>
                                                    simp only [runTask, dataStage, statsStage,
                                                      finishStage, failWrite, hgb] <;> first
                                                    | rfl
                                                    | decide
                                                    | (intro w; cases w <;> rfl)
                                              | ok u9 =>
                                                  cases f10 with
                                                  | error e0 =>
                                                      intro h
                                                      simp only [runTask, dataStage,
                                                        statsStage, finishStage, failWrite,
                                                        hgb, Except.error.injEq] at h
                                                      subst h
                                                      refine ⟨?_, ?_, ?_, ?_, ?_, ?_, ?_⟩ <;>
                                                        simp only [runTask, dataStage,
                                                          statsStage, finishStage, failWrite,
                                                          hgb] <;> first
                                                        | rfl
                                                        | decide
                                                        | (intro w; cases w <;> rfl)
                                                  | ok u10 =>
                                                      intro h
                                                      simp [runTask, dataStage, statsStage,
                                                        finishStage, failWrite, hgb] at h

/-- Environment for the C1 witness: run_analysis raises "boom", every
store write would succeed. -/
def envC1 : TaskEnv :=
  { saveRunning := Except.ok (), readFile := Except.ok (),
    runAnalysis := Except.error "boom",
    generatePlot := Except.ok { html := "H", jsonData := some "J" },
    writePlotFile := Except.ok (), createPlotRow := Except.ok (),
    writeDataFile := Except.ok (), createDataRow := Except.ok (),
    createStatsRow := Except.ok (), saveSuccess := Except.ok (),
    saveFailedWrite := Except.ok (),
    tStart := 1, tFile := 2, tFile2 := 3, tFinish := 4 }

/-- Fresh single-job database for the C1 witness. -/
def dbC1 : DB :=
  { job := { id := 9, status := JStatus.PENDING, errorMessage := none,
             startedAt := none, finishedAt := none,
             analysisType := "power_spectrum", backend := "stingray" },
    results := [], trace := [] }

/-- C1 witness: the concrete failing run ends FAILED. -/
theorem c1_failure_marks_failed_preserves_error_witness :
    (runTask { envC1 with saveFailedWrite := Except.ok () } dbC1).1.job.status
      = JStatus.FAILED ∧
    (runTask { envC1 with saveFailedWrite := Except.ok () } dbC1).1.job.errorMessage
      = some "boom" := by
  have h := c1_failure_marks_failed_preserves_error envC1 dbC1 "boom" rfl rfl
  exact ⟨h.1, h.2.1⟩

end ClaimC1

/-! ## The analysis backends

Each backend method is translated at the level the claims talk about:
the dispatch on analysis_type, the exact error strings, the data and
stats keys of each returned dictionary, and the peak-list construction.
Calls into the external numerical libraries (stingray, lightkurve,
astropy, numpy, scipy) are environment fields carrying the payload the
library produced or the text of the exception it raised. -/

/-- A numeric sequence; a numpy array is modelled as a list of rationals. -/
abbrev Series := List ℚ

/-- One peak entry as built by the peak finders: frequency and power.
The astropy variant also stores a period derived from the frequency; it
plays no role in ordering or truncation and is omitted. -/
structure Peak where
  frequency : ℚ
  power : ℚ
deriving DecidableEq

/-- Raw analysis output shape: the data sub-mapping (key to optional
numeric sequence, none modelling a Python None entry), the stats keys in
order, and the value stored under the top_peaks stats key when present.
The implementation-private plotting fields (the df entries) are never
persisted and are not modelled. -/
structure Raw where
  data : List (String × Option Series)
  stats : List String
  topPeaks : Option (List Peak)
deriving DecidableEq

/-- Whether a run_analysis call raised. -/
def isErr : Except String Raw → Bool
  | Except.error _ => true
  | Except.ok _ => false

/-- Insert a peak into a list sorted descending by power, before the
first entry whose power is not larger. -/
def insertPeakDesc (p : Peak) : List Peak → List Peak
  | [] => [p]
  | q :: qs => if q.power ≤ p.power then p :: q :: qs else q :: insertPeakDesc p qs

/-- Sort peaks descending by power: the observable effect of argsort on
the peak powers followed by reversal in the sources. -/
def sortPeaksDesc : List Peak → List Peak
  | [] => []
  | p :: ps => insertPeakDesc p (sortPeaksDesc ps)

/-- stingray_backend.py lines 309-314 and astropy_backend.py lines
175-181 (textually identical logic): order the found peaks by descending
power and keep the first five. -/
def topPeaksDesc5 (peaks : List Peak) : List Peak :=
  (sortPeaksDesc peaks).take 5

/-- lightkurve_backend.py lines 168-170: every peak the library returned
is kept, in the order returned; no truncation and no re-ordering. -/
def lightkurveTopPeaks (peaks : List Peak) : List Peak := peaks

/-- The peak list is in descending order of power. -/
def PowerSortedDesc (l : List Peak) : Prop :=
  List.Pairwise (fun a b => b.power ≤ a.power) l

theorem mem_insertPeakDesc {x p : Peak} {l : List Peak} :
    x ∈ insertPeakDesc p l ↔ x = p ∨ x ∈ l := by
  induction l with
  | nil => simp [insertPeakDesc]
  | cons q qs ih =>
      unfold insertPeakDesc
      split
      · simp [or_comm, or_left_comm]
      · simp [ih, or_comm, or_left_comm]

theorem sorted_insertPeakDesc (p : Peak) (l : List Peak)
    (h : PowerSortedDesc l) : PowerSortedDesc (insertPeakDesc p l) := by
  induction l with
  | nil => simp [insertPeakDesc, PowerSortedDesc]
  | cons q qs ih =>
      have h1 : ∀ x ∈ qs, x.power ≤ q.power := (List.pairwise_cons.mp h).1
      have h2 : PowerSortedDesc qs := (List.pairwise_cons.mp h).2
      unfold insertPeakDesc
      by_cases hc : q.power ≤ p.power
      · simp only [if_pos hc]
        refine List.pairwise_cons.mpr ⟨?_, h⟩
        intro x hx
        rcases List.mem_cons.mp hx with rfl | hx
        · exact hc
        · exact le_trans (h1 x hx) hc
      · simp only [if_neg hc]
        refine List.pairwise_cons.mpr ⟨?_, ih h2⟩
        intro x hx
        rcases mem_insertPeakDesc.mp hx with rfl | hx
        · exact le_of_not_le hc
        · exact h1 x hx

theorem sorted_sortPeaksDesc (l : List Peak) : PowerSortedDesc (sortPeaksDesc l) := by
  induction l with
  | nil => simp [sortPeaksDesc, PowerSortedDesc]
  | cons p ps ih => exact sorted_insertPeakDesc p _ ih

theorem length_topPeaksDesc5 (l : List Peak) : (topPeaksDesc5 l).length ≤ 5 := by
  simp [topPeaksDesc5]

theorem sorted_topPeaksDesc5 (l : List Peak) : PowerSortedDesc (topPeaksDesc5 l) :=
  List.Pairwise.sublist (List.take_sublist 5 _) (sorted_sortPeaksDesc l)

/-- Library call outcomes for one StingrayBackend.run_analysis call:
the Lightcurve construction of lines 113-114, then one field per leaf
method with the arrays it obtained from the library together with the
derived statistics (any exception inside the leaf, including the
repository arithmetic on empty arrays, surfaces as the error text). For
rebin the optional third series is the counts_err entry, None when the
rebinned light curve has none; the mean-method rescaling of the counts
is part of the payload. -/
structure StingrayEnv where
  lc : Except String Unit
  psLib : Except String (Series × Series × Series)
  fftLib : Except String (Series × Series × Series × Series)
  lsLib : Except String (Series × Series × List Peak)
  rebinLib : Except String (Series × Series × Option Series)
  simLib : Except String (Series × Series × Series × Series)

/-- stingray_backend.py run_analysis (lines 100-130) with its leaf
methods: construct the Lightcurve, then dispatch on analysis_type;
cross_spectrum always raises, an unknown type raises the unsupported
error; each leaf returns its dictionary with the literal data and stats
keys of the source, and only the lomb_scargle stats carry top_peaks. -/
def stingrayRunAnalysis (env : StingrayEnv) (analysisType : String) :
    Except String Raw :=
  match env.lc with
  | Except.error e => Except.error e
  | Except.ok _ =>
      if analysisType = "power_spectrum" then
        match env.psLib with
        | Except.error e =>
            Except.error (String.append "Error in power spectrum calculation: " e)
        | Except.ok out =>
            Except.ok
              { data := [("frequency", some out.1), ("power", some out.2.1),
                         ("power_err", some out.2.2)],
                stats := ["mean_power", "max_power", "max_power_freq", "n_bins"],
                topPeaks := none }
      else if analysisType = "fourier_transform" then
        match env.fftLib with
        | Except.error e => Except.error e
        | Except.ok out =>
            Except.ok
              { data := [("frequency", some out.1), ("real", some out.2.1),
                         ("imag", some out.2.2.1), ("amplitude", some out.2.2.2)],
                stats := ["max_amplitude", "max_amplitude_freq", "n_bins"],
                topPeaks := none }
      else if analysisType = "lomb_scargle" then
        match env.lsLib with
        | Except.error e => Except.error e
        | Except.ok out =>
            Except.ok
              { data := [("frequency", some out.1), ("power", some out.2.1)],
                stats := ["max_power", "max_power_freq", "n_bins", "top_peaks"],
                topPeaks := some (topPeaksDesc5 out.2.2) }
      else if analysisType = "rebin" then
        match env.rebinLib with
        | Except.error e => Except.error e
        | Except.ok out =>
            Except.ok
              { data := [("time", some out.1), ("counts", some out.2.1),
                         ("counts_err", out.2.2)],
                stats := ["mean_counts", "total_counts", "n_bins"],
                topPeaks := none }
      else if analysisType = "pds_simulation" then
        match env.simLib with
        | Except.error e => Except.error e
        | Except.ok out =>
            Except.ok
              { data := [("time", some out.1), ("counts", some out.2.1),
                         ("frequency", some out.2.2.1), ("power", some out.2.2.2)],
                stats := ["mean_counts", "total_counts", "rms_measured", "n_bins"],
                topPeaks := none }
      else if analysisType = "cross_spectrum" then
        Except.error "Cross spectrum analysis requires two light curves"
      else
        Except.error (String.append "Unsupported analysis type for Stingray: " analysisType)

/-- Library call outcomes for one LightkurveBackend.run_analysis call:
the LightCurve construction of lines 113-117, the periodogram arrays and
statistics, the peaks of the find_peaks try block (none when it raised,
in which case the source substitutes an empty list), and the rebin
output. -/
structure LightkurveEnv where
  lc : Except String Unit
  pgLib : Except String (Series × Series)
  pgPeaks : Option (List Peak)
  rebinLib : Except String (Series × Series × Option Series)

/-- lightkurve_backend.py run_analysis (lines 100-129) with its leaf
methods: power_spectrum, lomb_scargle and fourier_transform all dispatch
to the periodogram leaf; rebin to the bin leaf; everything else raises
the unsupported error. -/
def lightkurveRunAnalysis (env : LightkurveEnv) (analysisType : String) :
    Except String Raw :=
  match env.lc with
  | Except.error e => Except.error e
  | Except.ok _ =>
      if analysisType = "power_spectrum" ∨ analysisType = "lomb_scargle"
          ∨ analysisType = "fourier_transform" then
        match env.pgLib with
        | Except.error e => Except.error e
        | Except.ok out =>
            Except.ok
              { data := [("frequency", some out.1), ("power", some out.2)],
                stats := ["mean_power", "max_power", "max_power_freq", "n_bins",
                          "top_peaks"],
                topPeaks := some (match env.pgPeaks with
                                  | some peaks => lightkurveTopPeaks peaks
                                  | none => []) }
      else if analysisType = "rebin" then
        match env.rebinLib with
        | Except.error e => Except.error e
        | Except.ok out =>
            Except.ok
              { data := [("time", some out.1), ("flux", some out.2.1),
                         ("flux_err", out.2.2)],
                stats := ["mean_flux", "n_bins"],
                topPeaks := none }
      else
        Except.error (String.append "Unsupported analysis type for Lightkurve: " analysisType)

/-- Python builtin min over the time array: raises ValueError on an
empty array (reachable through a header-only text file read into empty
columns), otherwise the least element. The library message is
abbreviated. -/
def listMin : List ℚ → Except String ℚ
  | [] => Except.error "min() arg is an empty sequence"
  | x :: xs => Except.ok (xs.foldl min x)

/-- Python builtin max, same raising convention as listMin. -/
def listMax : List ℚ → Except String ℚ
  | [] => Except.error "max() arg is an empty sequence"
  | x :: xs => Except.ok (xs.foldl max x)

def listSum (l : List ℚ) : ℚ := l.foldr (fun a b => a + b) 0

/-- Mean of a list; the empty mean, NaN in pandas, is modelled as 0 (the
division by zero convention of the rationals) - no claim depends on an
empty bin. -/
def listMean (l : List ℚ) : ℚ := listSum l / (l.length : ℚ)

/-- The numpy array arange(lo, hi, step) produces for a nonzero step:
lo, lo + step, ... with ceil((hi - lo) / step) entries when that count
is positive and none otherwise (a negative step gives the numpy empty
or descending array without raising). -/
def arangeList (lo hi step : ℚ) : List ℚ :=
  (List.range (⌈(hi - lo) / step⌉).toNat).map (fun (i : Nat) => lo + (i : ℚ) * step)

/-- numpy arange over the rationals: a zero step raises
ZeroDivisionError inside numpy (reachable here because the bin_time
parameter is user-supplied and schema bounds are advisory only); any
nonzero step yields the array of arangeList. The library message is
abbreviated. -/
def arange (lo hi step : ℚ) : Except String (List ℚ) :=
  if step = 0 then Except.error "division by zero"
  else Except.ok (arangeList lo hi step)

/-- The values falling into bin i of the given edges: the cut
assignment places a sample of time t in bin i exactly when edge i < t
and t is at most edge i+1 (left-open, right-closed intervals); samples
outside every bin are dropped. -/
def binVals (times values : List ℚ) (edges : List ℚ) (i : Nat) : List ℚ :=
  ((times.zip values).filter (fun tv =>
    decide (edges.getD i 0 < tv.1)
    && decide (tv.1 ≤ edges.getD (i + 1) 0))).map Prod.snd

/-- astropy_backend.py lines 352-356: per bin, aggregate by sum when the
method is sum and by mean otherwise (the groupby over the cut categories
covers every interval between consecutive edges, empty ones included). -/
def rebinAggs (times values : List ℚ) (edges : List ℚ) (method : String) :
    Series :=
  (List.range (edges.length - 1)).map (fun i =>
    if method = "sum" then listSum (binVals times values edges i)
    else listMean (binVals times values edges i))

/-- astropy_backend.py line 359: the midpoints of consecutive edges
become the new time values. -/
def rebinMids (edges : List ℚ) : Series :=
  (List.range (edges.length - 1)).map (fun i =>
    (edges.getD i 0 + edges.getD (i + 1) 0) / 2)

/-- Whether some adjacent pair of edges decreases - the condition under
which the pandas cut raises its bins-must-increase error. -/
def hasNegDiff : List ℚ → Bool
  | a :: b :: rest => decide (b < a) || hasNegDiff (b :: rest)
  | _ => false

/-- The validity the cut demands of its edges before binning proceeds:
at least two edges forming no decreasing adjacent pair. -/
def cutEdgesValid (edges : List ℚ) : Bool :=
  decide (2 ≤ edges.length) && !(hasNegDiff edges)

/-- astropy_backend.py lines 346-377: the except branch of _run_rebin.
The branch itself runs code that can raise, and such a raise propagates
out of _run_rebin instead of a result: min()/max() over an empty time
array, np.arange with a zero bin size, and the cut over degenerate
edges (fewer than two, or a decreasing pair). With valid edges it
returns the data section (bin midpoints as the new times, the per-bin
aggregates as the flux) and the stats section. The library error
messages are abbreviated; no theorem depends on their text. -/
def fallbackRebin (times values : List ℚ) (binTime : ℚ) (method : String) :
    Except String Raw :=
  match listMin times with
  | Except.error e => Except.error e
  | Except.ok lo =>
      match listMax times with
      | Except.error e => Except.error e
      | Except.ok hi =>
          match arange lo (hi + binTime) binTime with
          | Except.error e => Except.error e
          | Except.ok edges =>
              if cutEdgesValid edges then
                Except.ok
                  { data := [("time", some (rebinMids edges)),
                             ("flux", some (rebinAggs times values edges method))],
                    stats := ["mean_flux", "n_bins"],
                    topPeaks := none }
              else
                Except.error "bins must increase monotonically"

/-- Library call outcomes for one AstropyBackend.run_analysis call: the
LombScargle arrays, statistics and found peaks; the fft arrays; and the
aggregate_downsample outcome of the primary rebin path (rebinned time
and flux, or the exception text). -/
structure AstropyEnv where
  lsLib : Except String (Series × Series × List Peak)
  fftLib : Except String (Series × Series × Series × Series)
  rebinLib : Except String (Series × Series)

/-- astropy_backend.py run_analysis (lines 111-131) with its leaf
methods: lomb_scargle and power_spectrum dispatch to the LombScargle
leaf, fourier_transform to the fft leaf, rebin to the rebin leaf whose
primary path is aggregate_downsample and whose except branch is the
generic fallback above (which can itself raise); everything else raises
the unsupported error. The time series and the bin parameters are
passed through because the fallback computes over them inside the
repository. -/
def astropyRunAnalysis (env : AstropyEnv) (analysisType : String)
    (times values : List ℚ) (binTime : ℚ) (method : String) :
    Except String Raw :=
  if analysisType = "lomb_scargle" ∨ analysisType = "power_spectrum" then
    match env.lsLib with
    | Except.error e => Except.error e
    | Except.ok out =>
        Except.ok
          { data := [("frequency", some out.1), ("power", some out.2.1)],
            stats := ["mean_power", "max_power", "max_power_freq", "n_bins",
                      "top_peaks"],
            topPeaks := some (topPeaksDesc5 out.2.2) }
  else if analysisType = "fourier_transform" then
    match env.fftLib with
    | Except.error e => Except.error e
    | Except.ok out =>
        Except.ok
          { data := [("frequency", some out.1), ("real", some out.2.1),
                     ("imag", some out.2.2.1), ("amplitude", some out.2.2.2)],
            stats := ["max_amplitude", "max_amplitude_freq", "n_bins"],
            topPeaks := none }
  else if analysisType = "rebin" then
    match env.rebinLib with
    | Except.ok out =>
        Except.ok
          { data := [("time", some out.1), ("flux", some out.2)],
            stats := ["mean_flux", "n_bins"],
            topPeaks := none }
    | Except.error _ => fallbackRebin times values binTime method
  else
    Except.error (String.append "Unsupported analysis type for Astropy: " analysisType)

/-- The analysis types a StingrayBackend.run_analysis call can answer
without raising. -/
def stingraySupported : List String :=
  ["power_spectrum", "fourier_transform", "lomb_scargle", "rebin", "pds_simulation"]

/-- The analysis types a LightkurveBackend.run_analysis call can answer
without raising. -/
def lightkurveSupported : List String :=
  ["power_spectrum", "lomb_scargle", "fourier_transform", "rebin"]

/-- The analysis types an AstropyBackend.run_analysis call can answer
without raising. -/
def astropySupported : List String :=
  ["lomb_scargle", "power_spectrum", "fourier_transform", "rebin"]

section ClaimC9

/-- C9: each backend either answers a run_analysis call with a result
whose data section is a non-empty mapping of named sequences, or raises;
a type outside the backend's supported set always raises; no successful
answer ever lacks a data section. -/
theorem c9_run_analysis_data_or_error :
    (∀ (env : StingrayEnv) (ty : String) (r : Raw),
        stingrayRunAnalysis env ty = Except.ok r → r.data ≠ [])
    ∧ (∀ (env : LightkurveEnv) (ty : String) (r : Raw),
        lightkurveRunAnalysis env ty = Except.ok r → r.data ≠ [])
    ∧ (∀ (env : AstropyEnv) (ty : String) (times values : List ℚ)
        (binTime : ℚ) (method : String) (r : Raw),
        astropyRunAnalysis env ty times values binTime method = Except.ok r →
        r.data ≠ [])
    ∧ (∀ (env : StingrayEnv) (ty : String), ty ∉ stingraySupported →
        isErr (stingrayRunAnalysis env ty) = true)
    ∧ (∀ (env : LightkurveEnv) (ty : String), ty ∉ lightkurveSupported →
        isErr (lightkurveRunAnalysis env ty) = true)
    ∧ (∀ (env : AstropyEnv) (ty : String) (times values : List ℚ)
        (binTime : ℚ) (method : String), ty ∉ astropySupported →
        isErr (astropyRunAnalysis env ty times values binTime method) = true) := by
  refine ⟨?_, ?_, ?_, ?_, ?_, ?_⟩
  · intro env ty r h
    obtain ⟨lc, ps, fft, ls, rb, sim⟩ := env
    cases lc with
    | error e => simp [stingrayRunAnalysis] at h
    | ok u =>
        simp only [stingrayRunAnalysis] at h
        repeat' split at h
        all_goals first
          | (injection h with h2; subst h2; simp)
          | injection h
  · intro env ty r h
    obtain ⟨lc, pg, pk, rb⟩ := env
    cases lc with
    | error e => simp [lightkurveRunAnalysis] at h
    | ok u =>
        simp only [lightkurveRunAnalysis] at h
        repeat' split at h
        all_goals first
          | (injection h with h2; subst h2; simp)
          | injection h
  · intro env ty times values binTime method r h
    obtain ⟨ls, fft, rb⟩ := env
    simp only [astropyRunAnalysis, fallbackRebin] at h
    repeat' split at h
    all_goals first
      | (injection h with h2; subst h2; simp)
      | injection h
  · intro env ty hty
    obtain ⟨lc, ps, fft, ls, rb, sim⟩ := env
    have h1 : ty ≠ "power_spectrum" := fun h => hty (by simp [stingraySupported, h])
    have h2 : ty ≠ "fourier_transform" := fun h => hty (by simp [stingraySupported, h])
    have h3 : ty ≠ "lomb_scargle" := fun h => hty (by simp [stingraySupported, h])
    have h4 : ty ≠ "rebin" := fun h => hty (by simp [stingraySupported, h])
    have h5 : ty ≠ "pds_simulation" := fun h => hty (by simp [stingraySupported, h])
    by_cases hc : ty = "cross_spectrum" <;>
      cases lc <;> simp [stingrayRunAnalysis, isErr, h1, h2, h3, h4, h5, hc]
  · intro env ty hty
    obtain ⟨lc, pg, pk, rb⟩ := env
    have h1 : ty ≠ "power_spectrum" := fun h => hty (by simp [lightkurveSupported, h])
    have h2 : ty ≠ "fourier_transform" := fun h => hty (by simp [lightkurveSupported, h])
    have h3 : ty ≠ "lomb_scargle" := fun h => hty (by simp [lightkurveSupported, h])
    have h4 : ty ≠ "rebin" := fun h => hty (by simp [lightkurveSupported, h])
    cases lc <;> simp [lightkurveRunAnalysis, isErr, h1, h2, h3, h4]
  · intro env ty times values binTime method hty
    obtain ⟨ls, fft, rb⟩ := env
    have h1 : ty ≠ "power_spectrum" := fun h => hty (by simp [astropySupported, h])
    have h2 : ty ≠ "fourier_transform" := fun h => hty (by simp [astropySupported, h])
    have h3 : ty ≠ "lomb_scargle" := fun h => hty (by simp [astropySupported, h])
    have h4 : ty ≠ "rebin" := fun h => hty (by simp [astropySupported, h])
    simp [astropyRunAnalysis, isErr, h1, h2, h3, h4]

/-- All-success library outcomes for the C9 witness. -/
def envStingrayW : StingrayEnv :=
  { lc := Except.ok (),
    psLib := Except.ok ([1, 2], [3, 4], [5, 6]),
    fftLib := Except.ok ([1], [2], [3], [4]),
    lsLib := Except.ok ([1], [2], [{ frequency := 1, power := 2 }]),
    rebinLib := Except.ok ([1], [2], none),
    simLib := Except.ok ([1], [2], [3], [4]) }

/-- C9 witness: a concrete successful power spectrum run has a non-empty
data section, and a concrete unregistered type raises. -/
theorem c9_run_analysis_data_or_error_witness :
    ({ data := [("frequency", some ([1, 2] : Series)),
                ("power", some ([3, 4] : Series)),
                ("power_err", some ([5, 6] : Series))],
       stats := ["mean_power", "max_power", "max_power_freq", "n_bins"],
       topPeaks := none } : Raw).data ≠ []
    ∧ isErr (stingrayRunAnalysis envStingrayW "light_curve") = true := by
  constructor
  · exact c9_run_analysis_data_or_error.1 envStingrayW "power_spectrum" _ rfl
  · exact c9_run_analysis_data_or_error.2.2.2.1 envStingrayW "light_curve" (by decide)

end ClaimC9

section ClaimC5

/-- The six peaks the library reports for the C5 counterexample run, in
ascending order of power. -/
def peaksC5 : List Peak :=
  [{ frequency := 1, power := 1 }, { frequency := 2, power := 2 },
   { frequency := 3, power := 3 }, { frequency := 4, power := 4 },
   { frequency := 5, power := 5 }, { frequency := 6, power := 6 }]

/-- Library outcomes for the C5 counterexample: a successful lightkurve
periodogram whose find_peaks call reports six peaks. -/
def envC5 : LightkurveEnv :=
  { lc := Except.ok (),
    pgLib := Except.ok ([1, 2], [3, 4]),
    pgPeaks := some peaksC5,
    rebinLib := Except.ok ([1], [2], none) }

/-- C5 counterexample: the lightkurve periodogram returns a stats
top_peaks list with six entries, in ascending order of power - more than
five entries and not sorted descending, refuting the claim for the
lightkurve backend. -/
theorem c5_counterexample :
    lightkurveRunAnalysis envC5 "lomb_scargle" =
      Except.ok
        { data := [("frequency", some ([1, 2] : Series)),
                   ("power", some ([3, 4] : Series))],
          stats := ["mean_power", "max_power", "max_power_freq", "n_bins",
                    "top_peaks"],
          topPeaks := some peaksC5 }
    ∧ 5 < peaksC5.length
    ∧ ¬ PowerSortedDesc peaksC5 := by
  refine ⟨rfl, by decide, ?_⟩
  intro hsort
  simp only [PowerSortedDesc, peaksC5] at hsort
  have h := (List.pairwise_cons.mp hsort).1 { frequency := 2, power := 2 } (by simp)
  norm_num at h

/-- C5 amended: in the Stingray and Astropy backends every returned peak
list has at most five entries and is sorted descending by power; the
Lightkurve backend instead keeps every peak the library found, in the
order found, without truncation or re-ordering (and substitutes an empty
list when peak finding raises). -/
theorem c5_amended_top_peaks :
    (∀ (env : StingrayEnv) (ty : String) (r : Raw) (ps : List Peak),
        stingrayRunAnalysis env ty = Except.ok r → r.topPeaks = some ps →
        ps.length ≤ 5 ∧ PowerSortedDesc ps)
    ∧ (∀ (env : AstropyEnv) (ty : String) (times values : List ℚ)
        (binTime : ℚ) (method : String) (r : Raw) (ps : List Peak),
        astropyRunAnalysis env ty times values binTime method = Except.ok r →
        r.topPeaks = some ps →
        ps.length ≤ 5 ∧ PowerSortedDesc ps)
    ∧ (∀ peaks : List Peak, lightkurveTopPeaks peaks = peaks) := by
  refine ⟨?_, ?_, fun _ => rfl⟩
  · intro env ty r ps h hp
    obtain ⟨lc, psf, fft, ls, rb, sim⟩ := env
    cases lc with
    | error e => simp [stingrayRunAnalysis] at h
    | ok u =>
        simp only [stingrayRunAnalysis] at h
        repeat' split at h
        all_goals first
          | (injection h with h2; subst h2; simp at hp)
          | injection h
        all_goals subst hp
        all_goals exact ⟨length_topPeaksDesc5 _, sorted_topPeaksDesc5 _⟩
  · intro env ty times values binTime method r ps h hp
    obtain ⟨ls, fft, rb⟩ := env
    simp only [astropyRunAnalysis, fallbackRebin] at h
    repeat' split at h
    all_goals first
      | (injection h with h2; subst h2; simp at hp)
      | injection h
    all_goals subst hp
    all_goals exact ⟨length_topPeaksDesc5 _, sorted_topPeaksDesc5 _⟩

/-- Library outcomes for the C5 amended witness: a successful stingray
Lomb-Scargle run with one found peak. -/
def envC5s : StingrayEnv :=
  { lc := Except.ok (),
    psLib := Except.ok ([1], [2], [3]),
    fftLib := Except.ok ([1], [2], [3], [4]),
    lsLib := Except.ok ([1], [2], [{ frequency := 1, power := 2 }]),
    rebinLib := Except.ok ([1], [2], none),
    simLib := Except.ok ([1], [2], [3], [4]) }

/-- C5 amended witness: the concrete stingray Lomb-Scargle peak list is
short and descending. -/
theorem c5_amended_top_peaks_witness :
    (topPeaksDesc5 [{ frequency := 1, power := 2 }]).length ≤ 5
    ∧ PowerSortedDesc (topPeaksDesc5 [{ frequency := 1, power := 2 }]) :=
  c5_amended_top_peaks.1 envC5s "lomb_scargle" _ _ rfl rfl

end ClaimC5

section ClaimC8

end ClaimC8

section ClaimC10

/-- C10: cross_spectrum is a registered analysis type with a schema
entry, yet every backend raises on it for every library outcome and
every input - a creatable job type no backend can execute. -/
theorem c10_cross_spectrum_registered_but_unexecutable :
    (ANALYSIS_CLASSES.map Prod.fst).contains "cross_spectrum" = true
    ∧ get_analysis_params "cross_spectrum" = Except.ok "CrossSpectrumAnalysis"
    ∧ (∀ env : StingrayEnv, isErr (stingrayRunAnalysis env "cross_spectrum") = true)
    ∧ (∀ env : LightkurveEnv, isErr (lightkurveRunAnalysis env "cross_spectrum") = true)
    ∧ (∀ (env : AstropyEnv) (times values : List ℚ) (binTime : ℚ) (method : String),
        isErr (astropyRunAnalysis env "cross_spectrum" times values binTime method) = true) := by
  refine ⟨rfl, rfl, ?_, ?_, ?_⟩
  · intro env
    obtain ⟨lc, ps, fft, ls, rb, sim⟩ := env
    cases lc <;> rfl
  · intro env
    obtain ⟨lc, pg, pk, rb⟩ := env
    cases lc <;> rfl
  · intro env times values binTime method
    rfl

end ClaimC10

end VAST
